import Mathlib

/-
Verification of the AI Tutor Orchestrator core logic.

The definitions below are a shallow embedding of the Python sources:
`orchestrator.py` (namespace `Orch`), the FastAPI application `main.py`
(namespace `Main`, which carries its own copy of the orchestrator plus the
mock tools and the two endpoints), and `educational_tools.py`
(namespace `EdTools`).  Python strings are Lean `String`s, Python `dict`
parameter mappings are association lists `List (String × Value)` built in
insertion order, and Python values flowing through the parameter maps are
modelled by the inductive type `Value`.
-/

namespace AITutor

/-- Model of Python `str.lower()` (ASCII, which is all the code uses). -/
def pyLower (s : String) : String := String.mk (s.toList.map Char.toLower)

/-- Bool-valued test that `n` is a prefix of `h` (character lists). -/
def prefixB : List Char → List Char → Bool
  | [], _ => true
  | _ :: _, [] => false
  | a :: as, b :: bs => a == b && prefixB as bs

/-- Bool-valued contiguous-sublist test, first argument is the needle. -/
def containsB : List Char → List Char → Bool
  | n, [] => prefixB n []
  | n, c :: cs => prefixB n (c :: cs) || containsB n cs

/-- Model of the Python substring test `needle in hay`. -/
def strContains (hay needle : String) : Bool :=
  containsB needle.toList hay.toList

/-- Model of Python `str.split()`: split on whitespace runs, dropping empties. -/
def wordsAux : List Char → List Char → List (List Char)
  | [], acc => if acc.isEmpty then [] else [acc.reverse]
  | c :: cs, acc =>
    if c.isWhitespace then
      if acc.isEmpty then wordsAux cs [] else acc.reverse :: wordsAux cs []
    else wordsAux cs (c :: acc)

/-- Whitespace word splitting on strings, as Python `message.split()`. -/
def pySplit (s : String) : List String := (wordsAux s.toList []).map String.mk

/-- Model of Python `sep.join(parts)`. -/
def pyJoin (sep : String) : List String → String
  | [] => ""
  | [x] => x
  | x :: y :: xs => x ++ sep ++ pyJoin sep (y :: xs)

/-- Helper for `pyTitle`: the flag records whether the previous character
was alphabetic. -/
def titleAux : List Char → Bool → List Char
  | [], _ => []
  | c :: cs, prevAlpha =>
    (if prevAlpha then c.toLower else c.toUpper) :: titleAux cs c.isAlpha

/-- Model of Python `str.title()` on the ASCII keyword strings used here. -/
def pyTitle (s : String) : String := String.mk (titleAux s.toList false)

/-- Student profile, from `UserInfo` in `models.py` / `main.py`. -/
structure UserInfo where
  user_id : String
  name : String
  grade_level : String
  learning_style_summary : String
  emotional_state_summary : String
  mastery_level_summary : String

/-- A chat turn, from `ChatMessage`. -/
structure ChatMessage where
  role : String
  content : String

/-- The orchestration request payload, from `ConversationRequest`. -/
structure ConversationRequest where
  user_info : UserInfo
  chat_history : List ChatMessage
  current_message : String

/-- Python values carried by the duck-typed parameter mappings. -/
inductive Value where
  | none : Value
  | str : String → Value
  | int : Int → Value
  | bool : Bool → Value
  | list : List Value → Value
  | dict : List (String × Value) → Value

/-- A Python `dict` with string keys, in insertion order. -/
abbrev Params := List (String × Value)

/-- Model of `parameters.get(k)` / key lookup in a Python dict. -/
def getParam (ps : Params) (k : String) : Option Value := List.lookup k ps

/-- `user_info.dict()` as produced by pydantic. -/
def userInfoDict (u : UserInfo) : Value :=
  .dict [("user_id", .str u.user_id), ("name", .str u.name),
         ("grade_level", .str u.grade_level),
         ("learning_style_summary", .str u.learning_style_summary),
         ("emotional_state_summary", .str u.emotional_state_summary),
         ("mastery_level_summary", .str u.mastery_level_summary)]

/-- `msg.dict()` for a chat message. -/
def chatMessageDict (m : ChatMessage) : Value :=
  .dict [("role", .str m.role), ("content", .str m.content)]

/-- Python truthiness of a value. -/
def truthyV : Value → Bool
  | .none => false
  | .str s => !(s.toList.isEmpty)
  | .int n => n != 0
  | .bool b => b
  | .list vs => !vs.isEmpty
  | .dict ps => !ps.isEmpty

/-- Python truthiness of `parameters.get(k)` (absent key is `None`). -/
def truthyO : Option Value → Bool
  | Option.none => false
  | Option.some v => truthyV v

/-- Python `==` between a value and a string literal (mixed types compare
unequal). -/
def valueEqStr (v : Value) (s : String) : Bool :=
  match v with
  | .str t => t == s
  | _ => false

/-- The single-quote character, used by Python `repr` of strings. -/
def sq : String := String.singleton (Char.ofNat 39)

/-- Model of Python `repr`. -/
def pyRepr : Value → String
  | .none => "None"
  | .str s => sq ++ s ++ sq
  | .int n => toString n
  | .bool b => if b then "True" else "False"
  | .list vs => "[" ++ pyJoin ", " (vs.attach.map (fun x => pyRepr x.1)) ++ "]"
  | .dict ps =>
    "\x7b" ++
      pyJoin ", " (ps.attach.map (fun x => sq ++ x.1.1 ++ sq ++ ": " ++ pyRepr x.1.2))
      ++ "\x7d"
termination_by v => sizeOf v
decreasing_by
  · have h := List.sizeOf_lt_of_mem x.2
    simp only [Value.list.sizeOf_spec]
    omega
  · have h := List.sizeOf_lt_of_mem x.2
    obtain ⟨⟨k, v⟩, hm⟩ := x
    simp only [Prod.mk.sizeOf_spec] at h
    simp only [Value.dict.sizeOf_spec]
    omega

/-- Model of Python `str()` as used by f-string interpolation. -/
def pyStr : Value → String
  | .str s => s
  | v => pyRepr v

/-- Model of Python `range(count)` for a duck-typed count: integers (and
bools, which are integers in Python) are accepted, anything else raises
`TypeError`. -/
def pyRange : Value → Except String (List Nat)
  | .int n => .ok (List.range n.toNat)
  | .bool b => .ok (List.range (if b then 1 else 0))
  | _ => .error "TypeError: 'Value' object cannot be interpreted as an integer"

/-- Python `l[-n:]`: the last `n` elements of a list. -/
def lastN (n : Nat) (l : List α) : List α := l.drop (l.length - n)

namespace Orch

/-- The tool schemas registered in `TutorOrchestrator.__init__`
(`orchestrator.py`): required and optional parameter names per tool. -/
def toolSchemas : List (String × (List String × List String)) :=
  [("note_maker",
     (["user_info", "chat_history", "topic", "subject", "note_taking_style"],
      ["include_examples", "include_analogies"])),
   ("flashcard_generator",
     (["user_info", "topic", "count", "difficulty", "subject"],
      ["include_examples"])),
   ("concept_explainer",
     (["user_info", "chat_history", "concept_to_explain", "current_topic",
       "desired_depth"],
      []))]

/-- The required-key set of a tool, read off `toolSchemas`. -/
def requiredParams (tool : String) : List String :=
  match List.lookup tool toolSchemas with
  | some schema => schema.1
  | none => []

/-- `self.educational_keywords` from `TutorOrchestrator.__init__`
(`orchestrator.py`), in source order, duplicate included. -/
def educationalKeywords : List String :=
  ["math", "calculus", "algebra", "geometry", "statistics",
   "science", "biology", "chemistry", "physics", "environmental",
   "history", "literature", "english", "writing", "reading",
   "programming", "computer science", "coding", "photosynthesis",
   "derivatives", "equations", "world war", "photosynthesis"]

/-- `self.subject_mapping` from `TutorOrchestrator.__init__`
(`orchestrator.py`), in insertion order. -/
def subjectMapping : List (String × String) :=
  [("math", "Mathematics"), ("calculus", "Mathematics"),
   ("algebra", "Mathematics"), ("geometry", "Mathematics"),
   ("statistics", "Mathematics"), ("science", "Science"),
   ("biology", "Biology"), ("chemistry", "Chemistry"),
   ("physics", "Physics"), ("environmental", "Environmental Science"),
   ("history", "History"), ("english", "English"),
   ("literature", "English"), ("programming", "Computer Science"),
   ("coding", "Computer Science")]

/-- The `full_text` scanned by `_extract_topic`: the lower-cased current
message followed by the lower-cased content of the last 3 chat turns. -/
def topicSearchText (message : String) (chatHistory : List ChatMessage) : String :=
  (lastN 3 chatHistory).foldl (fun acc m => acc ++ " " ++ pyLower m.content)
    (pyLower message)

/-- `TutorOrchestrator._extract_topic` (`orchestrator.py`, lines 115-131). -/
def extractTopic (message : String) (chatHistory : List ChatMessage) : String :=
  match educationalKeywords.find?
      (fun k => strContains (topicSearchText message chatHistory) k) with
  | some k => pyTitle k
  | none =>
    let words := pySplit message
    if 3 ≤ words.length then pyJoin " " (words.take 3) else "General Topic"

/-- The `full_text` scanned by `_extract_subject`: the lower-cased current
message followed by the lower-cased content of the last 2 chat turns. -/
def subjectSearchText (message : String) (chatHistory : List ChatMessage) : String :=
  (lastN 2 chatHistory).foldl (fun acc m => acc ++ " " ++ pyLower m.content)
    (pyLower message)

/-- `TutorOrchestrator._extract_subject` (`orchestrator.py`, lines 133-143). -/
def extractSubject (message : String) (chatHistory : List ChatMessage) : String :=
  match subjectMapping.find?
      (fun kv => strContains (subjectSearchText message chatHistory) kv.1) with
  | some kv => kv.2
  | none => "General Education"

/-- Note-making keywords of `_determine_tool_type`. -/
def noteKeywords : List String :=
  ["note", "notes", "summary", "outline", "study guide"]

/-- Flashcard/practice keywords of `_determine_tool_type`. -/
def practiceKeywords : List String :=
  ["flashcard", "quiz", "test", "practice", "review", "memorize"]

/-- Explanation keywords of `_determine_tool_type`. -/
def explainKeywords : List String :=
  ["explain", "understand", "concept", "how", "what", "why", "confused"]

/-- `TutorOrchestrator._determine_tool_type` (`orchestrator.py`,
lines 145-162). -/
def determineToolType (message : String) : String :=
  if noteKeywords.any (fun w => strContains (pyLower message) w) then
    "note_maker"
  else if practiceKeywords.any (fun w => strContains (pyLower message) w) then
    "flashcard_generator"
  else if explainKeywords.any (fun w => strContains (pyLower message) w) then
    "concept_explainer"
  else
    "concept_explainer"

/-- `TutorOrchestrator._infer_note_style` (`orchestrator.py`). -/
def inferNoteStyle (learningStyle : String) : String :=
  if strContains (pyLower learningStyle) "visual" then "structured"
  else if strContains (pyLower learningStyle) "kinesthetic" then "bullet_points"
  else if strContains (pyLower learningStyle) "auditory" then "narrative"
  else "outline"

/-- `TutorOrchestrator._infer_flashcard_count` (`orchestrator.py`,
lines 177-186). -/
def inferFlashcardCount (message : String) : Int :=
  if ["few", "some", "little"].any (fun w => strContains (pyLower message) w) then 5
  else if ["many", "lot", "comprehensive", "extensive"].any
      (fun w => strContains (pyLower message) w) then 15
  else 10

/-- `TutorOrchestrator._infer_difficulty` (`orchestrator.py`,
lines 188-207). -/
def inferDifficulty (masteryLevel message : String) : String :=
  if ["struggling", "difficult", "hard", "confused"].any
      (fun w => strContains (pyLower message) w) then "easy"
  else if ["advanced", "expert", "challenging"].any
      (fun w => strContains (pyLower message) w) then "hard"
  else if strContains (pyLower masteryLevel) "level 7"
      || strContains (pyLower masteryLevel) "level 8"
      || strContains (pyLower masteryLevel) "level 9" then "hard"
  else if strContains (pyLower masteryLevel) "level 4"
      || strContains (pyLower masteryLevel) "level 5"
      || strContains (pyLower masteryLevel) "level 6" then "medium"
  else if strContains (pyLower masteryLevel) "level 1"
      || strContains (pyLower masteryLevel) "level 2"
      || strContains (pyLower masteryLevel) "level 3" then "easy"
  else "medium"

/-- `TutorOrchestrator._infer_depth` (`orchestrator.py`, lines 209-228). -/
def inferDepth (masteryLevel message : String) : String :=
  if ["basic", "simple", "beginner", "confused"].any
      (fun w => strContains (pyLower message) w) then "basic"
  else if ["advanced", "comprehensive", "detailed"].any
      (fun w => strContains (pyLower message) w) then "comprehensive"
  else if strContains (pyLower masteryLevel) "level 8"
      || strContains (pyLower masteryLevel) "level 9"
      || strContains (pyLower masteryLevel) "level 10" then "advanced"
  else if strContains (pyLower masteryLevel) "level 2"
      || strContains (pyLower masteryLevel) "level 3" then "basic"
  else if strContains (pyLower masteryLevel) "level 6"
      || strContains (pyLower masteryLevel) "level 7" then "intermediate"
  else "intermediate"

/-- `TutorOrchestrator.extract_parameters` (`orchestrator.py`,
lines 59-113): builds the parameter mapping in insertion order and
returns it with the selected tool type. -/
def extractParameters (req : ConversationRequest) : Params × String :=
  let userInfo := req.user_info
  let chatHistory := req.chat_history
  let currentMessage := req.current_message
  let base : Params :=
    [("user_info", userInfoDict userInfo),
     ("chat_history", Value.list (chatHistory.map chatMessageDict))]
  let topic := extractTopic currentMessage chatHistory
  let subject := extractSubject currentMessage chatHistory
  let toolType := determineToolType currentMessage
  let extracted : Params :=
    if toolType = "note_maker" then
      base ++
        [("topic", .str topic), ("subject", .str subject),
         ("note_taking_style", .str (inferNoteStyle userInfo.learning_style_summary)),
         ("include_examples", .bool true),
         ("include_analogies",
          .bool (strContains (pyLower userInfo.learning_style_summary) "visual"))]
    else if toolType = "flashcard_generator" then
      base ++
        [("topic", .str topic), ("subject", .str subject),
         ("count", .int (inferFlashcardCount currentMessage)),
         ("difficulty",
          .str (inferDifficulty userInfo.mastery_level_summary currentMessage)),
         ("include_examples", .bool true)]
    else if toolType = "concept_explainer" then
      base ++
        [("concept_to_explain", .str topic), ("current_topic", .str subject),
         ("desired_depth",
          .str (inferDepth userInfo.mastery_level_summary currentMessage))]
    else
      base
  (extracted, toolType)

end Orch

/-- The spec's decision table for tool selection: ordered (keyword set,
tool) rows, evaluated top to bottom. -/
def toolRules : List (List String × String) :=
  [(Orch.noteKeywords, "note_maker"),
   (Orch.practiceKeywords, "flashcard_generator"),
   (Orch.explainKeywords, "concept_explainer")]

/-- Modelled from the spec.md section 4.1 wording: the first row of the
decision table with any keyword contained in the lower-cased message wins,
and `concept_explainer` is the default when no row matches. -/
def firstMatchTool (message : String) : String :=
  match toolRules.find?
      (fun rule => rule.1.any (fun w => strContains (pyLower message) w)) with
  | some rule => rule.2
  | none => "concept_explainer"

/-- The explicit message-level difficulty keywords of spec section 4.1. -/
def explicitDifficultyKeywords : List String :=
  ["struggling", "difficult", "hard", "confused",
   "advanced", "expert", "challenging"]

/-- The explicit message-level depth keywords of spec section 4.1. -/
def explicitDepthKeywords : List String :=
  ["basic", "simple", "beginner", "confused",
   "advanced", "comprehensive", "detailed"]

/-- The quantity-hint keywords of spec section 4.1 for the flashcard
count. -/
def quantityKeywords : List String :=
  ["few", "some", "little", "many", "lot", "comprehensive", "extensive"]

/-- The `ToolResponse` pydantic model of `main.py` / `models.py`. -/
structure ToolResponse where
  success : Bool
  tool_name : String
  response_data : Params
  error_message : Option String

namespace Main

/-- The keyword list local to `TutorOrchestrator._extract_topic` in
`main.py` (lines 126-131); it differs from the `orchestrator.py` list. -/
def educationalKeywords : List String :=
  ["math", "calculus", "algebra", "geometry", "statistics",
   "science", "biology", "chemistry", "physics", "environmental",
   "history", "literature", "english", "writing", "reading",
   "programming", "computer science", "coding"]

/-- `TutorOrchestrator._extract_topic` in `main.py` (lines 123-139): scans
only the current message, and in the fallback returns the Python list
`message.split()[:3]` (not a string) for any non-empty message. -/
def extractTopicValue (message : String) (_chatHistory : List ChatMessage) : Value :=
  match educationalKeywords.find? (fun k => strContains (pyLower message) k) with
  | some k => .str (pyTitle k)
  | none =>
    if (pySplit message).isEmpty then .str "General Topic"
    else .list (((pySplit message).take 3).map .str)

/-- The subject mapping local to `_extract_subject` in `main.py`
(lines 143-154). -/
def subjectMapping : List (String × String) :=
  [("math", "Mathematics"), ("calculus", "Mathematics"),
   ("algebra", "Mathematics"), ("science", "Science"),
   ("biology", "Biology"), ("chemistry", "Chemistry"),
   ("physics", "Physics"), ("history", "History"),
   ("english", "English"), ("literature", "English")]

/-- `TutorOrchestrator._extract_subject` in `main.py` (lines 141-161). -/
def extractSubject (message : String) (_chatHistory : List ChatMessage) : String :=
  match subjectMapping.find? (fun kv => strContains (pyLower message) kv.1) with
  | some kv => kv.2
  | none => "General Education"

/-- `TutorOrchestrator._determine_tool_type` in `main.py` (lines 163-174);
its keyword lists lack "study guide" and "memorize". -/
def determineToolType (message : String) : String :=
  if ["note", "notes", "summary", "outline"].any
      (fun w => strContains (pyLower message) w) then "note_maker"
  else if ["flashcard", "quiz", "test", "practice", "review"].any
      (fun w => strContains (pyLower message) w) then "flashcard_generator"
  else if ["explain", "understand", "concept", "how", "what", "why"].any
      (fun w => strContains (pyLower message) w) then "concept_explainer"
  else "concept_explainer"

/-- `TutorOrchestrator._infer_note_style` in `main.py` (lines 176-185). -/
def inferNoteStyle (learningStyle : String) : String :=
  if strContains (pyLower learningStyle) "visual" then "structured"
  else if strContains (pyLower learningStyle) "kinesthetic" then "bullet_points"
  else if strContains (pyLower learningStyle) "auditory" then "narrative"
  else "outline"

/-- `TutorOrchestrator._infer_flashcard_count` in `main.py`
(lines 187-194). -/
def inferFlashcardCount (message : String) : Int :=
  if strContains (pyLower message) "few" || strContains (pyLower message) "some"
    then 5
  else if strContains (pyLower message) "many" || strContains (pyLower message) "lot"
    then 15
  else 10

/-- `TutorOrchestrator._infer_difficulty` in `main.py` (lines 196-207). -/
def inferDifficulty (masteryLevel message : String) : String :=
  if strContains (pyLower message) "struggling"
      || strContains (pyLower message) "difficult" then "easy"
  else if strContains (pyLower message) "advanced"
      || strContains (pyLower message) "expert" then "hard"
  else if strContains (pyLower masteryLevel) "level 7"
      || strContains (pyLower masteryLevel) "level 8" then "hard"
  else if strContains (pyLower masteryLevel) "level 4"
      || strContains (pyLower masteryLevel) "level 5" then "medium"
  else "medium"

/-- `TutorOrchestrator._infer_depth` in `main.py` (lines 209-220). -/
def inferDepth (masteryLevel message : String) : String :=
  if strContains (pyLower message) "basic"
      || strContains (pyLower message) "simple" then "basic"
  else if strContains (pyLower message) "advanced"
      || strContains (pyLower message) "comprehensive" then "comprehensive"
  else if strContains (pyLower masteryLevel) "level 8"
      || strContains (pyLower masteryLevel) "level 9" then "advanced"
  else if strContains (pyLower masteryLevel) "level 2"
      || strContains (pyLower masteryLevel) "level 3" then "basic"
  else "intermediate"

/-- `TutorOrchestrator.extract_parameters` in `main.py` (lines 79-121). -/
def extractParameters (req : ConversationRequest) : Params × String :=
  let userInfo := req.user_info
  let chatHistory := req.chat_history
  let currentMessage := req.current_message
  let base : Params :=
    [("user_info", userInfoDict userInfo),
     ("chat_history", Value.list (chatHistory.map chatMessageDict))]
  let topic := extractTopicValue currentMessage chatHistory
  let subject := extractSubject currentMessage chatHistory
  let toolType := determineToolType currentMessage
  let extracted : Params :=
    if toolType = "note_maker" then
      base ++
        [("topic", topic), ("subject", .str subject),
         ("note_taking_style", .str (inferNoteStyle userInfo.learning_style_summary)),
         ("include_examples", .bool true),
         ("include_analogies",
          .bool (strContains (pyLower userInfo.learning_style_summary) "visual"))]
    else if toolType = "flashcard_generator" then
      base ++
        [("topic", topic), ("subject", .str subject),
         ("count", .int (inferFlashcardCount currentMessage)),
         ("difficulty",
          .str (inferDifficulty userInfo.mastery_level_summary currentMessage)),
         ("include_examples", .bool true)]
    else if toolType = "concept_explainer" then
      base ++
        [("concept_to_explain", topic), ("current_topic", .str subject),
         ("desired_depth",
          .str (inferDepth userInfo.mastery_level_summary currentMessage))]
    else
      base
  (extracted, toolType)

/-- `MockEducationalTools.note_maker` in `main.py` (lines 227-246). -/
def mockNoteMaker (p : Params) : Params :=
  [("topic", (getParam p "topic").getD (.str "General Topic")),
   ("title",
    .str ("Notes on " ++ pyStr ((getParam p "topic").getD (.str "General Topic")))),
   ("summary",
    .str ("Comprehensive notes covering "
      ++ pyStr ((getParam p "topic").getD (.str "the topic"))
      ++ " with examples and key concepts.")),
   ("note_sections",
    .list [.dict
      [("title", .str "Introduction"),
       ("content",
        .str ("Introduction to "
          ++ pyStr ((getParam p "topic").getD (.str "the topic")))),
       ("key_points", .list [.str "Key concept 1", .str "Key concept 2"]),
       ("examples", .list [.str "Example 1", .str "Example 2"]),
       ("analogies",
        if truthyO (getParam p "include_analogies") then .list [.str "Analogy 1"]
        else .list [])]]),
   ("key_concepts", .list [.str "Concept 1", .str "Concept 2", .str "Concept 3"]),
   ("practice_suggestions",
    .list [.str "Practice exercise 1", .str "Practice exercise 2"]),
   ("note_taking_style", (getParam p "note_taking_style").getD (.str "outline"))]

/-- `MockEducationalTools.flashcard_generator` in `main.py`
(lines 248-268); `range(count)` raises for a non-integer count, which the
endpoint handlers catch. -/
def mockFlashcardGenerator (p : Params) : Except String Params :=
  let topic := (getParam p "topic").getD (.str "General Topic")
  let count := (getParam p "count").getD (.int 5)
  match pyRange count with
  | .error e => .error e
  | .ok idxs =>
    let flashcards := idxs.map (fun i => Value.dict
      [("title", .str ("Question " ++ toString (i + 1))),
       ("question", .str ("What is the main concept of " ++ pyStr topic ++ "?")),
       ("answer", .str ("The main concept of " ++ pyStr topic ++ " is...")),
       ("example", .str ("Example: " ++ pyStr topic ++ " in practice..."))])
    .ok
      [("flashcards", .list flashcards),
       ("topic", topic),
       ("adaptation_details",
        .str ("Adapted for "
          ++ pyStr ((getParam p "difficulty").getD (.str "medium"))
          ++ " difficulty")),
       ("difficulty", (getParam p "difficulty").getD (.str "medium"))]

/-- `MockEducationalTools.concept_explainer` in `main.py`
(lines 270-289). -/
def mockConceptExplainer (p : Params) : Params :=
  let concept := (getParam p "concept_to_explain").getD (.str "General Concept")
  let depth := (getParam p "desired_depth").getD (.str "intermediate")
  [("explanation",
    .str ("This is a " ++ pyStr depth ++ " explanation of " ++ pyStr concept
      ++ ". It covers the fundamental principles and applications.")),
   ("examples",
    .list [.str ("Example 1: " ++ pyStr concept ++ " in real-world scenario"),
           .str ("Example 2: " ++ pyStr concept ++ " in academic context")]),
   ("related_concepts", .list [.str "Related concept 1", .str "Related concept 2"]),
   ("visual_aids", .list [.str "Diagram suggestion", .str "Chart recommendation"]),
   ("practice_questions",
    .list [.str ("How does " ++ pyStr concept ++ " work?"),
           .str ("What are the applications of " ++ pyStr concept ++ "?")]),
   ("source_references", .list [.str "Reference 1", .str "Reference 2"])]

/-- The `/api/orchestrate` handler `orchestrate_conversation` in `main.py`
(lines 301-335): extract, dispatch on the tool type, and convert any
raised exception into a failure `ToolResponse` with tool name
"unknown". -/
def orchestrateConversation (req : ConversationRequest) : ToolResponse :=
  let pr := extractParameters req
  let result : Except String Params :=
    if pr.2 = "note_maker" then .ok (mockNoteMaker pr.1)
    else if pr.2 = "flashcard_generator" then mockFlashcardGenerator pr.1
    else if pr.2 = "concept_explainer" then .ok (mockConceptExplainer pr.1)
    else .error ("400: Unknown tool type: " ++ pr.2)
  match result with
  | .ok data => ⟨true, pr.2, data, Option.none⟩
  | .error e => ⟨false, "unknown", [], some e⟩

/-- The `/api/tools/a tool name` handler `call_tool_directly` in `main.py`
(lines 337-365): dispatch on the given tool name, and convert any raised
exception (including the 404 `HTTPException` for an unknown name) into a
failure `ToolResponse`. -/
def callToolDirectly (toolName : String) (p : Params) : ToolResponse :=
  let result : Except String Params :=
    if toolName = "note_maker" then .ok (mockNoteMaker p)
    else if toolName = "flashcard_generator" then mockFlashcardGenerator p
    else if toolName = "concept_explainer" then .ok (mockConceptExplainer p)
    else .error ("404: Tool " ++ sq ++ toolName ++ sq ++ " not found")
  match result with
  | .ok data => ⟨true, toolName, data, Option.none⟩
  | .error e => ⟨false, toolName, [], some e⟩

end Main

namespace EdTools

/-- `EducationalTools.flashcard_generator` in `educational_tools.py`
(lines 91-138): generates `count` flashcards whose content depends on the
difficulty value; no clamping is applied to the count. -/
def flashcardGenerator (p : Params) : Except String Params :=
  let topic := (getParam p "topic").getD (.str "General Topic")
  let count := (getParam p "count").getD (.int 5)
  let difficulty := (getParam p "difficulty").getD (.str "medium")
  let subject := (getParam p "subject").getD (.str "General Education")
  let includeExamples := (getParam p "include_examples").getD (.bool true)
  match pyRange count with
  | .error e => .error e
  | .ok idxs =>
    let flashcards := idxs.map (fun i =>
      let qae : String × String × Option String :=
        if valueEqStr difficulty "easy" then
          ("What is the basic concept of " ++ pyStr topic ++ "?",
           "The basic concept of " ++ pyStr topic
             ++ " is fundamental understanding.",
           if truthyV includeExamples then
             some ("Example: " ++ pyStr topic ++ " in simple terms")
           else Option.none)
        else if valueEqStr difficulty "hard" then
          ("Explain the advanced applications of " ++ pyStr topic ++ " in "
             ++ pyStr subject ++ ".",
           "Advanced applications of " ++ pyStr topic
             ++ " include complex scenarios and real-world implementations.",
           if truthyV includeExamples then
             some ("Advanced example: " ++ pyStr topic
               ++ " in professional context")
           else Option.none)
        else
          ("What are the key principles of " ++ pyStr topic ++ "?",
           "The key principles of " ++ pyStr topic
             ++ " include core concepts and practical applications.",
           if truthyV includeExamples then
             some ("Example: " ++ pyStr topic ++ " in practice")
           else Option.none)
      Value.dict
        [("title", .str ("Question " ++ toString (i + 1))),
         ("question", .str qae.1),
         ("answer", .str qae.2.1),
         ("example",
          match qae.2.2 with
          | some e => .str e
          | Option.none => Value.none)])
    .ok
      [("flashcards", .list flashcards),
       ("topic", topic),
       ("adaptation_details",
        .str ("Adapted for " ++ pyStr difficulty
          ++ " difficulty level based on student profile")),
       ("difficulty", difficulty)]

end EdTools

/-- The current message of the spec's note-making scenario (section 8),
also used by `demo.py`. -/
def noteScenarioMessage : String :=
  "I need comprehensive notes on photosynthesis for my biology class"

/-- The note-making scenario snapshot: the given message, an empty chat
history, and a caller-supplied profile. -/
def noteScenarioRequest (u : UserInfo) : ConversationRequest :=
  ⟨u, [], noteScenarioMessage⟩

/-- The visual-learner profile used by `demo.py`'s note-making demo. -/
def demoVisualUser : UserInfo :=
  ⟨"student123", "Alice", "10",
   "Visual learner, prefers structured notes with examples",
   "Focused and motivated",
   "Level 6: Good understanding, ready for application"⟩

/-! Supporting lemmas. -/

theorem prefixB_iff (n h : List Char) : prefixB n h = true ↔ ∃ t, n ++ t = h := by
  induction n generalizing h with
  | nil => simp [prefixB]
  | cons a as ih =>
    cases h with
    | nil => simp [prefixB]
    | cons b bs =>
      simp only [prefixB, Bool.and_eq_true, beq_iff_eq, ih, List.cons_append,
        List.cons.injEq]
      constructor
      · rintro ⟨rfl, t, rfl⟩
        exact ⟨t, rfl, rfl⟩
      · rintro ⟨t, rfl, h2⟩
        exact ⟨rfl, t, h2⟩

theorem containsB_iff (n h : List Char) :
    containsB n h = true ↔ ∃ s t, s ++ n ++ t = h := by
  induction h with
  | nil =>
    simp only [containsB, prefixB_iff]
    constructor
    · rintro ⟨t, h⟩
      exact ⟨[], t, by simpa using h⟩
    · rintro ⟨s, t, h⟩
      rcases List.append_eq_nil.mp h with ⟨h1, rfl⟩
      rcases List.append_eq_nil.mp h1 with ⟨rfl, rfl⟩
      exact ⟨[], rfl⟩
  | cons c cs ih =>
    simp only [containsB, Bool.or_eq_true, prefixB_iff, ih]
    constructor
    · rintro (⟨t, ht⟩ | ⟨s, t, ht⟩)
      · exact ⟨[], t, by simpa using ht⟩
      · exact ⟨c :: s, t, by simpa using ht⟩
    · rintro ⟨s, t, h⟩
      cases s with
      | nil =>
        exact Or.inl ⟨t, by simpa using h⟩
      | cons c2 s2 =>
        injection h with h1 h2
        exact Or.inr ⟨s2, t, h2⟩

theorem strContains_iff (hay needle : String) :
    strContains hay needle = true ↔
      ∃ s t, s ++ needle.toList ++ t = hay.toList :=
  containsB_iff needle.toList hay.toList

theorem toList_append (a b : String) : (a ++ b).toList = a.toList ++ b.toList := by
  cases a
  cases b
  rfl

theorem strAppend_assoc (a b c : String) : a ++ b ++ c = a ++ (b ++ c) := by
  cases a
  cases b
  cases c
  exact congrArg String.mk (List.append_assoc _ _ _)

theorem strContains_sandwich (a b c : String) :
    strContains (a ++ b ++ c) b = true := by
  rw [strContains_iff]
  exact ⟨a.toList, c.toList, by rw [toList_append, toList_append]⟩

theorem toList_pyLower (s : String) :
    (pyLower s).toList = s.toList.map Char.toLower := rfl

theorem strContains_pyLower (s t : String) (h : strContains s t = true) :
    strContains (pyLower s) (pyLower t) = true := by
  obtain ⟨x, y, hxy⟩ := (strContains_iff s t).mp h
  rw [strContains_iff]
  refine ⟨x.map Char.toLower, y.map Char.toLower, ?_⟩
  rw [toList_pyLower, toList_pyLower, ← List.map_append, ← List.map_append, hxy]

theorem orch_toolType_cases (m : String) :
    Orch.determineToolType m = "note_maker" ∨
      Orch.determineToolType m = "flashcard_generator" ∨
      Orch.determineToolType m = "concept_explainer" := by
  unfold Orch.determineToolType
  split_ifs <;> simp

theorem orch_extract_note (req : ConversationRequest)
    (h : Orch.determineToolType req.current_message = "note_maker") :
    Orch.extractParameters req =
      ([("user_info", userInfoDict req.user_info),
        ("chat_history", Value.list (req.chat_history.map chatMessageDict)),
        ("topic", .str (Orch.extractTopic req.current_message req.chat_history)),
        ("subject", .str (Orch.extractSubject req.current_message req.chat_history)),
        ("note_taking_style",
         .str (Orch.inferNoteStyle req.user_info.learning_style_summary)),
        ("include_examples", .bool true),
        ("include_analogies",
         .bool (strContains (pyLower req.user_info.learning_style_summary)
           "visual"))],
       "note_maker") := by
  simp [Orch.extractParameters, h]

theorem orch_extract_flashcard (req : ConversationRequest)
    (h : Orch.determineToolType req.current_message = "flashcard_generator") :
    Orch.extractParameters req =
      ([("user_info", userInfoDict req.user_info),
        ("chat_history", Value.list (req.chat_history.map chatMessageDict)),
        ("topic", .str (Orch.extractTopic req.current_message req.chat_history)),
        ("subject", .str (Orch.extractSubject req.current_message req.chat_history)),
        ("count", .int (Orch.inferFlashcardCount req.current_message)),
        ("difficulty",
         .str (Orch.inferDifficulty req.user_info.mastery_level_summary
           req.current_message)),
        ("include_examples", .bool true)],
       "flashcard_generator") := by
  simp [Orch.extractParameters, h]

/-- C1 counterexample: on the scenario snapshot the extracted topic is
"Biology" — the keyword "biology" precedes "photosynthesis" in the scan
list — and not "Photosynthesis" as the claim states. -/
theorem c1_counterexample :
    strContains demoVisualUser.learning_style_summary "Visual" = true ∧
    getParam (Orch.extractParameters (noteScenarioRequest demoVisualUser)).1
      "topic" = some (Value.str "Biology") ∧
    ("Biology" : String) ≠ "Photosynthesis" :=
  ⟨by decide, rfl, by decide⟩

/-- C1 (amended): on the scenario snapshot with a learning-style summary
containing "Visual", extraction selects `note_maker` and produces
topic = "Biology", subject = "Biology", note_taking_style = "structured",
and include_analogies = true. -/
theorem c1_amended (u : UserInfo)
    (hv : strContains u.learning_style_summary "Visual" = true) :
    (Orch.extractParameters (noteScenarioRequest u)).2 = "note_maker" ∧
    getParam (Orch.extractParameters (noteScenarioRequest u)).1 "topic" =
      some (Value.str "Biology") ∧
    getParam (Orch.extractParameters (noteScenarioRequest u)).1 "subject" =
      some (Value.str "Biology") ∧
    getParam (Orch.extractParameters (noteScenarioRequest u)).1
      "note_taking_style" = some (Value.str "structured") ∧
    getParam (Orch.extractParameters (noteScenarioRequest u)).1
      "include_analogies" = some (Value.bool true) := by
  have hlow : strContains (pyLower u.learning_style_summary) "visual" = true := by
    have h2 := strContains_pyLower u.learning_style_summary "Visual" hv
    rw [show pyLower "Visual" = "visual" from rfl] at h2
    exact h2
  have ht : Orch.determineToolType (noteScenarioRequest u).current_message =
      "note_maker" := rfl
  rw [orch_extract_note (noteScenarioRequest u) ht]
  refine ⟨rfl, rfl, rfl, ?_, ?_⟩
  · have hstyle : Orch.inferNoteStyle
        (noteScenarioRequest u).user_info.learning_style_summary =
        "structured" := by
      unfold Orch.inferNoteStyle
      simp [noteScenarioRequest, hlow]
    simp [getParam, List.lookup, hstyle]
  · simp [getParam, List.lookup, noteScenarioRequest, hlow]

/-- C1 witness: the amended scenario at the demo profile. -/
theorem c1_witness :
    (Orch.extractParameters (noteScenarioRequest demoVisualUser)).2 =
      "note_maker" ∧
    getParam (Orch.extractParameters (noteScenarioRequest demoVisualUser)).1
      "topic" = some (Value.str "Biology") ∧
    getParam (Orch.extractParameters (noteScenarioRequest demoVisualUser)).1
      "subject" = some (Value.str "Biology") ∧
    getParam (Orch.extractParameters (noteScenarioRequest demoVisualUser)).1
      "note_taking_style" = some (Value.str "structured") ∧
    getParam (Orch.extractParameters (noteScenarioRequest demoVisualUser)).1
      "include_analogies" = some (Value.bool true) :=
  c1_amended demoVisualUser (by decide)

/-- C2: tool selection is the fixed-priority decision table of the spec —
note-taking, then practice, then explanation keywords, tested against the
lower-cased current message with `concept_explainer` as the default — and
in particular every message containing "flashcard" and no note-taking
keyword selects `flashcard_generator`. -/
theorem c2_tool_selection :
    (∀ m : String, Orch.determineToolType m = firstMatchTool m) ∧
    (∀ m : String, strContains (pyLower m) "flashcard" = true →
      Orch.noteKeywords.any (fun w => strContains (pyLower m) w) = false →
      Orch.determineToolType m = "flashcard_generator") := by
  constructor
  · intro m
    unfold Orch.determineToolType firstMatchTool toolRules
    cases h1 : Orch.noteKeywords.any (fun w => strContains (pyLower m) w) <;>
      cases h2 : Orch.practiceKeywords.any (fun w => strContains (pyLower m) w) <;>
      cases h3 : Orch.explainKeywords.any (fun w => strContains (pyLower m) w) <;>
      simp [List.find?, h1, h2, h3]
  · intro m hf hn
    have h2 : Orch.practiceKeywords.any (fun w => strContains (pyLower m) w) = true :=
      List.any_eq_true.mpr ⟨"flashcard", by decide, hf⟩
    unfold Orch.determineToolType
    simp [hn, h2]

/-- C2 witness: a concrete flashcard request with no note-taking keyword. -/
theorem c2_witness :
    Orch.determineToolType "Make me flashcards on algebra" = "flashcard_generator" :=
  c2_tool_selection.2 "Make me flashcards on algebra" (by decide) (by decide)

/-- C3 counterexample: the one-word, keyword-free message "hello" is not
empty, yet topic extraction returns "General Topic" rather than the first
words of the message. -/
theorem c3_counterexample :
    (∀ k ∈ Orch.educationalKeywords,
      strContains (Orch.topicSearchText "hello" []) k = false) ∧
    Orch.extractTopic "hello" [] = "General Topic" ∧
      ("hello" : String) ≠ "" := by
  exact ⟨by decide, rfl, by decide⟩

/-- C3 (amended): when no educational keyword occurs in the scanned text,
topic extraction returns the space-join of the first 3 whitespace-delimited
words when the message has at least 3 words, and returns "General Topic"
for every message with fewer than 3 words (not only the empty one). -/
theorem c3_amended (message : String) (hist : List ChatMessage)
    (hkw : ∀ k ∈ Orch.educationalKeywords,
      strContains (Orch.topicSearchText message hist) k = false) :
    (3 ≤ (pySplit message).length →
      Orch.extractTopic message hist = pyJoin " " ((pySplit message).take 3)) ∧
    ((pySplit message).length < 3 →
      Orch.extractTopic message hist = "General Topic") := by
  have hfind : Orch.educationalKeywords.find?
      (fun k => strContains (Orch.topicSearchText message hist) k) = none := by
    rw [List.find?_eq_none]
    intro k hk
    simp [hkw k hk]
  constructor
  · intro h3
    unfold Orch.extractTopic
    rw [hfind]
    simp [h3]
  · intro h3
    unfold Orch.extractTopic
    rw [hfind]
    simp [Nat.not_le.mpr h3]

/-- C3 witness: a keyword-free four-word message keeps its first three
words. -/
theorem c3_witness :
    Orch.extractTopic "please help me now" [] =
      pyJoin " " ((pySplit "please help me now").take 3) :=
  (c3_amended "please help me now" [] (by decide)).1 (by decide)

/-- C5: with "Level 8" in the (case-insensitively scanned) mastery summary
and no explicit difficulty or depth keyword in the message, difficulty
inference returns "hard" and depth inference returns "advanced". -/
theorem c5_level8 (mastery message : String)
    (h8 : strContains (pyLower mastery) "level 8" = true)
    (hdiff : ∀ w ∈ explicitDifficultyKeywords,
      strContains (pyLower message) w = false)
    (hdepth : ∀ w ∈ explicitDepthKeywords,
      strContains (pyLower message) w = false) :
    Orch.inferDifficulty mastery message = "hard" ∧
      Orch.inferDepth mastery message = "advanced" := by
  have e1 : (["struggling", "difficult", "hard", "confused"].any
      (fun w => strContains (pyLower message) w)) = false := by
    rw [List.any_eq_false]
    intro x hx
    simp only [List.mem_cons, List.not_mem_nil, or_false] at hx
    rcases hx with rfl | rfl | rfl | rfl <;>
      simp only [Bool.not_eq_true] <;> exact hdiff _ (by decide)
  have e2 : (["advanced", "expert", "challenging"].any
      (fun w => strContains (pyLower message) w)) = false := by
    rw [List.any_eq_false]
    intro x hx
    simp only [List.mem_cons, List.not_mem_nil, or_false] at hx
    rcases hx with rfl | rfl | rfl <;>
      simp only [Bool.not_eq_true] <;> exact hdiff _ (by decide)
  have e3 : (["basic", "simple", "beginner", "confused"].any
      (fun w => strContains (pyLower message) w)) = false := by
    rw [List.any_eq_false]
    intro x hx
    simp only [List.mem_cons, List.not_mem_nil, or_false] at hx
    rcases hx with rfl | rfl | rfl | rfl <;>
      simp only [Bool.not_eq_true] <;> exact hdepth _ (by decide)
  have e4 : (["advanced", "comprehensive", "detailed"].any
      (fun w => strContains (pyLower message) w)) = false := by
    rw [List.any_eq_false]
    intro x hx
    simp only [List.mem_cons, List.not_mem_nil, or_false] at hx
    rcases hx with rfl | rfl | rfl <;>
      simp only [Bool.not_eq_true] <;> exact hdepth _ (by decide)
  constructor
  · unfold Orch.inferDifficulty
    simp [e1, e2, h8]
  · unfold Orch.inferDepth
    simp [e3, e4, h8]

/-- C5 witness: mastery "Level 8" with an empty message. -/
theorem c5_witness :
    Orch.inferDifficulty "Level 8" "" = "hard" ∧
      Orch.inferDepth "Level 8" "" = "advanced" :=
  c5_level8 "Level 8" "" (by decide) (by decide) (by decide)

/-- C6: whenever extraction selects the flashcard tool, the count in the
extracted parameters is an integer in the inclusive range 1 to 20, and it
equals 10 when the message contains no quantity-hint keyword. -/
theorem c6_count (req : ConversationRequest)
    (hfc : (Orch.extractParameters req).2 = "flashcard_generator") :
    ∃ n : Int,
      getParam (Orch.extractParameters req).1 "count" = some (Value.int n) ∧
      1 ≤ n ∧ n ≤ 20 ∧
      ((∀ w ∈ quantityKeywords,
          strContains (pyLower req.current_message) w = false) → n = 10) := by
  have h : Orch.determineToolType req.current_message = "flashcard_generator" := hfc
  rw [orch_extract_flashcard req h]
  refine ⟨Orch.inferFlashcardCount req.current_message, rfl, ?_, ?_, ?_⟩
  · unfold Orch.inferFlashcardCount
    split_ifs <;> norm_num
  · unfold Orch.inferFlashcardCount
    split_ifs <;> norm_num
  · intro hq
    have e1 : (["few", "some", "little"].any
        (fun w => strContains (pyLower req.current_message) w)) = false := by
      rw [List.any_eq_false]
      intro x hx
      simp only [List.mem_cons, List.not_mem_nil, or_false] at hx
      rcases hx with rfl | rfl | rfl <;>
      simp only [Bool.not_eq_true] <;> exact hq _ (by decide)
    have e2 : (["many", "lot", "comprehensive", "extensive"].any
        (fun w => strContains (pyLower req.current_message) w)) = false := by
      rw [List.any_eq_false]
      intro x hx
      simp only [List.mem_cons, List.not_mem_nil, or_false] at hx
      rcases hx with rfl | rfl | rfl | rfl <;>
      simp only [Bool.not_eq_true] <;> exact hq _ (by decide)
    unfold Orch.inferFlashcardCount
    simp [e1, e2]

/-- C6 witness: a flashcard request with no quantity hint. -/
theorem c6_witness :
    ∃ n : Int,
      getParam (Orch.extractParameters
        ⟨⟨"u1", "Dana", "9", "Visual", "calm", "Level 5"⟩, [],
          "flashcards please"⟩).1 "count" = some (Value.int n) ∧
      1 ≤ n ∧ n ≤ 20 ∧
      ((∀ w ∈ quantityKeywords,
          strContains (pyLower "flashcards please") w = false) → n = 10) :=
  c6_count ⟨⟨"u1", "Dana", "9", "Visual", "calm", "Level 5"⟩, [],
    "flashcards please"⟩ (by decide)

theorem orch_extract_concept (req : ConversationRequest)
    (h : Orch.determineToolType req.current_message = "concept_explainer") :
    Orch.extractParameters req =
      ([("user_info", userInfoDict req.user_info),
        ("chat_history", Value.list (req.chat_history.map chatMessageDict)),
        ("concept_to_explain",
         .str (Orch.extractTopic req.current_message req.chat_history)),
        ("current_topic",
         .str (Orch.extractSubject req.current_message req.chat_history)),
        ("desired_depth",
         .str (Orch.inferDepth req.user_info.mastery_level_summary
           req.current_message))],
       "concept_explainer") := by
  simp [Orch.extractParameters, h]

/-- C4: for every snapshot, every key in the selected tool's required set
is present in the extracted parameter mapping with a non-null value. -/
theorem c4_required_present (req : ConversationRequest) (k : String)
    (hk : k ∈ Orch.requiredParams (Orch.extractParameters req).2) :
    ∃ v, getParam (Orch.extractParameters req).1 k = some v ∧
      v ≠ Value.none := by
  rcases orch_toolType_cases req.current_message with h | h | h
  · rw [orch_extract_note req h] at hk ⊢
    have hk2 : k ∈ ["user_info", "chat_history", "topic", "subject",
        "note_taking_style"] := hk
    simp only [List.mem_cons, List.not_mem_nil, or_false] at hk2
    rcases hk2 with rfl | rfl | rfl | rfl | rfl <;>
      exact ⟨_, rfl, by simp [userInfoDict]⟩
  · rw [orch_extract_flashcard req h] at hk ⊢
    have hk2 : k ∈ ["user_info", "topic", "count", "difficulty", "subject"] := hk
    simp only [List.mem_cons, List.not_mem_nil, or_false] at hk2
    rcases hk2 with rfl | rfl | rfl | rfl | rfl <;>
      exact ⟨_, rfl, by simp [userInfoDict]⟩
  · rw [orch_extract_concept req h] at hk ⊢
    have hk2 : k ∈ ["user_info", "chat_history", "concept_to_explain",
        "current_topic", "desired_depth"] := hk
    simp only [List.mem_cons, List.not_mem_nil, or_false] at hk2
    rcases hk2 with rfl | rfl | rfl | rfl | rfl <;>
      exact ⟨_, rfl, by simp [userInfoDict]⟩

/-- C4 witness: the required key "user_info" on a degenerate snapshot. -/
theorem c4_witness :
    ∃ v, getParam (Orch.extractParameters
      ⟨⟨"u2", "Eli", "8", "auditory", "calm", "Level 2"⟩, [], ""⟩).1
      "user_info" = some v ∧ v ≠ Value.none :=
  c4_required_present
    ⟨⟨"u2", "Eli", "8", "auditory", "calm", "Level 2"⟩, [], ""⟩
    "user_info" (by decide)

/-- C7: dispatching any tool identifier outside the closed set returns a
failure result with an empty payload and a non-empty error message that
contains the offending identifier; the dispatcher is a total function, so
no exception reaches the caller. -/
theorem c7_unknown_tool (name : String) (p : Params)
    (h1 : name ≠ "note_maker") (h2 : name ≠ "flashcard_generator")
    (h3 : name ≠ "concept_explainer") :
    (Main.callToolDirectly name p).success = false ∧
    (Main.callToolDirectly name p).response_data = [] ∧
    ∃ e, (Main.callToolDirectly name p).error_message = some e ∧
      e ≠ "" ∧ strContains e name = true := by
  have hres : Main.callToolDirectly name p =
      ⟨false, name, [],
       some ("404: Tool " ++ sq ++ name ++ sq ++ " not found")⟩ := by
    unfold Main.callToolDirectly
    simp [h1, h2, h3]
  rw [hres]
  refine ⟨rfl, rfl, "404: Tool " ++ sq ++ name ++ sq ++ " not found",
    rfl, ?_, ?_⟩
  · intro habs
    have h0 : ("404: Tool " ++ sq ++ name ++ sq ++ " not found").toList =
        ("" : String).toList := by rw [habs]
    rw [toList_append, toList_append, toList_append, toList_append] at h0
    rcases List.append_eq_nil.mp h0 with ⟨h0a, -⟩
    rcases List.append_eq_nil.mp h0a with ⟨h0b, -⟩
    rcases List.append_eq_nil.mp h0b with ⟨h0c, -⟩
    rcases List.append_eq_nil.mp h0c with ⟨h0d, -⟩
    exact absurd h0d (by decide)
  · have hassoc : "404: Tool " ++ sq ++ name ++ sq ++ " not found" =
        ("404: Tool " ++ sq) ++ name ++ (sq ++ " not found") := by
      rw [strAppend_assoc (("404: Tool " ++ sq) ++ name) sq]
    rw [hassoc]
    exact strContains_sandwich ("404: Tool " ++ sq) name (sq ++ " not found")

/-- C7 witness: the unknown identifier "quiz_builder" with an empty
parameter mapping. -/
theorem c7_witness :
    (Main.callToolDirectly "quiz_builder" []).success = false ∧
    (Main.callToolDirectly "quiz_builder" []).response_data = [] ∧
    ∃ e, (Main.callToolDirectly "quiz_builder" []).error_message = some e ∧
      e ≠ "" ∧ strContains e "quiz_builder" = true :=
  c7_unknown_tool "quiz_builder" [] (by decide) (by decide) (by decide)

theorem main_toolType_cases (m : String) :
    Main.determineToolType m = "note_maker" ∨
      Main.determineToolType m = "flashcard_generator" ∨
      Main.determineToolType m = "concept_explainer" := by
  unfold Main.determineToolType
  split_ifs <;> simp

theorem main_extract_note (req : ConversationRequest)
    (h : Main.determineToolType req.current_message = "note_maker") :
    Main.extractParameters req =
      ([("user_info", userInfoDict req.user_info),
        ("chat_history", Value.list (req.chat_history.map chatMessageDict)),
        ("topic", Main.extractTopicValue req.current_message req.chat_history),
        ("subject", .str (Main.extractSubject req.current_message req.chat_history)),
        ("note_taking_style",
         .str (Main.inferNoteStyle req.user_info.learning_style_summary)),
        ("include_examples", .bool true),
        ("include_analogies",
         .bool (strContains (pyLower req.user_info.learning_style_summary)
           "visual"))],
       "note_maker") := by
  simp [Main.extractParameters, h]

theorem main_extract_flashcard (req : ConversationRequest)
    (h : Main.determineToolType req.current_message = "flashcard_generator") :
    Main.extractParameters req =
      ([("user_info", userInfoDict req.user_info),
        ("chat_history", Value.list (req.chat_history.map chatMessageDict)),
        ("topic", Main.extractTopicValue req.current_message req.chat_history),
        ("subject", .str (Main.extractSubject req.current_message req.chat_history)),
        ("count", .int (Main.inferFlashcardCount req.current_message)),
        ("difficulty",
         .str (Main.inferDifficulty req.user_info.mastery_level_summary
           req.current_message)),
        ("include_examples", .bool true)],
       "flashcard_generator") := by
  simp [Main.extractParameters, h]

theorem main_extract_concept (req : ConversationRequest)
    (h : Main.determineToolType req.current_message = "concept_explainer") :
    Main.extractParameters req =
      ([("user_info", userInfoDict req.user_info),
        ("chat_history", Value.list (req.chat_history.map chatMessageDict)),
        ("concept_to_explain",
         Main.extractTopicValue req.current_message req.chat_history),
        ("current_topic",
         .str (Main.extractSubject req.current_message req.chat_history)),
        ("desired_depth",
         .str (Main.inferDepth req.user_info.mastery_level_summary
           req.current_message))],
       "concept_explainer") := by
  simp [Main.extractParameters, h]

theorem mockFlashcard_count_int (p : Params) (n : Int)
    (hc : getParam p "count" = some (Value.int n)) :
    ∃ d l, Main.mockFlashcardGenerator p = .ok d ∧
      getParam d "flashcards" = some (Value.list l) ∧ l.length = n.toNat := by
  unfold Main.mockFlashcardGenerator
  rw [hc]
  exact ⟨_, _, rfl, rfl, by simp⟩

theorem mockFlashcard_count_absent (p : Params)
    (hc : getParam p "count" = Option.none) :
    ∃ d l, Main.mockFlashcardGenerator p = .ok d ∧
      getParam d "flashcards" = some (Value.list l) ∧ l.length = 5 := by
  unfold Main.mockFlashcardGenerator
  rw [hc]
  exact ⟨_, _, rfl, rfl, by simp⟩

theorem edFlashcard_count_int (p : Params) (n : Int)
    (hc : getParam p "count" = some (Value.int n)) :
    ∃ d l, EdTools.flashcardGenerator p = .ok d ∧
      getParam d "flashcards" = some (Value.list l) ∧ l.length = n.toNat := by
  unfold EdTools.flashcardGenerator
  rw [hc]
  exact ⟨_, _, rfl, rfl, by simp⟩

theorem edFlashcard_count_absent (p : Params)
    (hc : getParam p "count" = Option.none) :
    ∃ d l, EdTools.flashcardGenerator p = .ok d ∧
      getParam d "flashcards" = some (Value.list l) ∧ l.length = 5 := by
  unfold EdTools.flashcardGenerator
  rw [hc]
  exact ⟨_, _, rfl, rfl, by simp⟩

/-- C8: dispatching the tool identifier and parameter mapping produced by
extraction through the direct tool endpoint yields exactly the result of
the full orchestrate pipeline on the same snapshot. -/
theorem c8_roundtrip (req : ConversationRequest) :
    Main.callToolDirectly (Main.extractParameters req).2
      (Main.extractParameters req).1 = Main.orchestrateConversation req := by
  rcases main_toolType_cases req.current_message with h | h | h
  · simp only [Main.orchestrateConversation, Main.callToolDirectly,
      main_extract_note req h]
    simp
  · obtain ⟨d, l, hd, -, -⟩ := mockFlashcard_count_int
      [("user_info", userInfoDict req.user_info),
       ("chat_history", Value.list (req.chat_history.map chatMessageDict)),
       ("topic", Main.extractTopicValue req.current_message req.chat_history),
       ("subject", .str (Main.extractSubject req.current_message req.chat_history)),
       ("count", .int (Main.inferFlashcardCount req.current_message)),
       ("difficulty",
        .str (Main.inferDifficulty req.user_info.mastery_level_summary
          req.current_message)),
       ("include_examples", .bool true)]
      (Main.inferFlashcardCount req.current_message) rfl
    simp only [Main.orchestrateConversation, Main.callToolDirectly,
      main_extract_flashcard req h]
    simp [hd]
  · simp only [Main.orchestrateConversation, Main.callToolDirectly,
      main_extract_concept req h]
    simp

/-- C10: both flashcard tool implementations generate exactly the
requested number of cards — `n` for an integer count `n ≥ 0` even outside
the 1 to 20 range, and 5 when the count key is absent — so the tools
themselves apply no clamping. -/
theorem c10_no_clamp :
    (∀ (p : Params) (n : Int),
      getParam p "count" = some (Value.int n) → 0 ≤ n →
      (∃ d l, Main.mockFlashcardGenerator p = .ok d ∧
        getParam d "flashcards" = some (Value.list l) ∧ (l.length : Int) = n) ∧
      (∃ d l, EdTools.flashcardGenerator p = .ok d ∧
        getParam d "flashcards" = some (Value.list l) ∧ (l.length : Int) = n)) ∧
    (∀ p : Params, getParam p "count" = Option.none →
      (∃ d l, Main.mockFlashcardGenerator p = .ok d ∧
        getParam d "flashcards" = some (Value.list l) ∧ l.length = 5) ∧
      (∃ d l, EdTools.flashcardGenerator p = .ok d ∧
        getParam d "flashcards" = some (Value.list l) ∧ l.length = 5)) := by
  constructor
  · intro p n hc hn
    constructor
    · obtain ⟨d, l, hd, hl, hlen⟩ := mockFlashcard_count_int p n hc
      exact ⟨d, l, hd, hl, by rw [hlen]; exact Int.toNat_of_nonneg hn⟩
    · obtain ⟨d, l, hd, hl, hlen⟩ := edFlashcard_count_int p n hc
      exact ⟨d, l, hd, hl, by rw [hlen]; exact Int.toNat_of_nonneg hn⟩
  · intro p hc
    exact ⟨mockFlashcard_count_absent p hc, edFlashcard_count_absent p hc⟩

/-- C10 witness: an out-of-range count of 25 cards, and an absent count. -/
theorem c10_witness :
    ((∃ d l, Main.mockFlashcardGenerator [("count", Value.int 25)] = .ok d ∧
        getParam d "flashcards" = some (Value.list l) ∧ (l.length : Int) = 25) ∧
     (∃ d l, EdTools.flashcardGenerator [("count", Value.int 25)] = .ok d ∧
        getParam d "flashcards" = some (Value.list l) ∧ (l.length : Int) = 25)) ∧
    ((∃ d l, Main.mockFlashcardGenerator [] = .ok d ∧
        getParam d "flashcards" = some (Value.list l) ∧ l.length = 5) ∧
     (∃ d l, EdTools.flashcardGenerator [] = .ok d ∧
        getParam d "flashcards" = some (Value.list l) ∧ l.length = 5)) :=
  ⟨c10_no_clamp.1 [("count", Value.int 25)] 25 rfl (by decide),
   c10_no_clamp.2 [] rfl⟩

/-- C9: the degenerate snapshot with empty message and empty history
yields topic "General Topic", subject "General Education", the default
tool `concept_explainer`, and those fallbacks appear in the extracted
parameters (extraction is a total function, so it cannot raise). -/
theorem c9_degenerate (u : UserInfo) :
    Orch.extractTopic "" [] = "General Topic" ∧
    Orch.extractSubject "" [] = "General Education" ∧
    (Orch.extractParameters ⟨u, [], ""⟩).2 = "concept_explainer" ∧
    getParam (Orch.extractParameters ⟨u, [], ""⟩).1 "concept_to_explain" =
      some (Value.str "General Topic") ∧
    getParam (Orch.extractParameters ⟨u, [], ""⟩).1 "current_topic" =
      some (Value.str "General Education") :=
  ⟨rfl, rfl, rfl, rfl, rfl⟩

end AITutor
